import Mathlib

/-!
Shallow embedding of the ArgoVisor monitor core (src/services/ArgoVisor.js and
src/services/ArgoVisorApi.js): data model, cluster fan-out, metrics
aggregation, the alert state machine, and the scheduler busy flag.
Times are naturals (milliseconds); network effects are modelled as explicit
inputs (a poll function per cluster, a dispatch-success oracle per message).
-/

/-- Mapped application record: `name`, `healthStatus`, `syncStatus`
(opaque metadata/spec/status payloads are carried by the source but
irrelevant here). -/
structure Application where
  name : String
  healthStatus : String
  syncStatus : String
deriving Repr, DecidableEq, Inhabited

/-- One cluster's outcome for a cycle (processCluster result shape). -/
structure ClusterResult where
  name : String
  url : String
  applications : List Application
deriving Repr, DecidableEq, Inhabited

/-- The eight aggregated counters (getEmptyMetrics shape). -/
structure Metrics where
  totalApps : Nat
  healthyApps : Nat
  syncedApps : Nat
  degradedApps : Nat
  failedApps : Nat
  outOfSyncApps : Nat
  unknownApps : Nat
  processingApps : Nat
deriving Repr, DecidableEq, Inhabited

/-- ArgoVisor.getEmptyMetrics: all counters zero. -/
def getEmptyMetrics : Metrics :=
  { totalApps := 0
    healthyApps := 0
    syncedApps := 0
    degradedApps := 0
    failedApps := 0
    outOfSyncApps := 0
    unknownApps := 0
    processingApps := 0 }

/-- Character-list test: `sub` occurs at the head of `s`. -/
def leadMatch : List Char → List Char → Bool
  | [], _ => true
  | _ :: _, [] => false
  | a :: as, b :: bs => a == b && leadMatch as bs

/-- Character-list test: `sub` occurs somewhere in `s`. -/
def subOccurs (sub : List Char) : List Char → Bool
  | [] => leadMatch sub []
  | c :: cs => leadMatch sub (c :: cs) || subOccurs sub cs

/-- JavaScript String.prototype.includes: substring containment. -/
def strContains (s sub : String) : Bool :=
  subOccurs sub.data s.data

/-- The seven status-counter increments shared verbatim by
ArgoVisor.calculateMetrics and ArgoVisorApi.calculateFilteredMetrics:
one `if` per counter, in source order. -/
def countApp (m : Metrics) (app : Application) : Metrics :=
  let m1 := if app.healthStatus = "Healthy" then { m with healthyApps := m.healthyApps + 1 } else m
  let m2 := if app.healthStatus = "Degraded" then { m1 with degradedApps := m1.degradedApps + 1 } else m1
  let m3 := if app.healthStatus = "Failed" then { m2 with failedApps := m2.failedApps + 1 } else m2
  let m4 := if app.healthStatus = "Unknown" then { m3 with unknownApps := m3.unknownApps + 1 } else m3
  let m5 := if app.syncStatus = "Synced" then { m4 with syncedApps := m4.syncedApps + 1 } else m4
  let m6 := if app.syncStatus = "OutOfSync" then { m5 with outOfSyncApps := m5.outOfSyncApps + 1 } else m5
  if app.syncStatus = "Processing" then { m6 with processingApps := m6.processingApps + 1 } else m6

/-- ArgoVisor.calculateMetrics: totalApps accumulates each cluster's
application count, then every application runs the seven counter ifs. -/
def calculateMetrics (results : List ClusterResult) : Metrics :=
  results.foldl
    (fun m result =>
      let m1 := { m with totalApps := m.totalApps + result.applications.length }
      result.applications.foldl countApp m1)
    getEmptyMetrics

/-- Default EXCLUDED_APPS of ArgoVisorApi.js (no EXCLUDED_APPS env var). -/
def EXCLUDED_APPS_default : List String :=
  ["argocd-apps", "argocd-initialize"]

/-- ArgoVisorApi.calculateFilteredMetrics: drops applications whose name is
a member of the exclusion list, then counts totalApps per application plus
the seven status counters. -/
def calculateFilteredMetrics (excluded : List String) (clusters : List ClusterResult) : Metrics :=
  clusters.foldl
    (fun m cluster =>
      let filteredApps := cluster.applications.filter (fun app => !(excluded.contains app.name))
      filteredApps.foldl (fun m2 app => countApp { m2 with totalApps := m2.totalApps + 1 } app) m)
    getEmptyMetrics

/-- The problem set of ArgoVisor.sendSlackUpdates: applications whose name
does NOT contain the substring "argocd-apps", with health status Unknown,
Degraded or Missing, or sync status OutOfSync. -/
def problematicApps (result : ClusterResult) : List Application :=
  (result.applications.filter (fun app => !(strContains app.name "argocd-apps"))).filter
    (fun app =>
      app.healthStatus == "Unknown" ||
      app.healthStatus == "Degraded" ||
      app.healthStatus == "Missing" ||
      app.syncStatus == "OutOfSync")

/-- The groupedApps local of ArgoVisor.formatAlert: the four category
groups of the formatted alert message, in source order. -/
def groupedApps (apps : List Application) : List (String × List Application) :=
  [("Missing", apps.filter (fun app => app.healthStatus == "Missing")),
   ("Unknown", apps.filter (fun app => app.healthStatus == "Unknown")),
   ("Degraded", apps.filter (fun app => app.healthStatus == "Degraded")),
   ("OutOfSync", apps.filter (fun app => app.syncStatus == "OutOfSync" && app.healthStatus == "Healthy"))]

/-- The lastAlerts Map of ArgoVisor: cluster name to last-alert time. -/
abbrev AlertMap := List (String × Nat)

/-- Map.prototype.get on lastAlerts. -/
def alertGet (m : AlertMap) (k : String) : Option Nat :=
  (m.find? (fun p => p.1 == k)).map (fun p => p.2)

/-- Map.prototype.set on lastAlerts: replace in place, or append. -/
def alertSet (m : AlertMap) (k : String) (v : Nat) : AlertMap :=
  if m.any (fun p => p.1 == k) then
    m.map (fun p => if p.1 == k then (k, v) else p)
  else m ++ [(k, v)]

/-- Map.prototype.delete on lastAlerts. -/
def alertErase (m : AlertMap) (k : String) : AlertMap :=
  m.filter (fun p => p.1 != k)

/-- The shouldSendAlert local of ArgoVisor.sendSlackUpdates:
`!lastAlert || (now - lastAlert > this.alertInterval)`. JavaScript
truthiness makes a recorded time of 0 count as absent; the comparison is
STRICT (`>`). Subtraction is truncated, matching the JavaScript number
comparison on non-negative times. -/
def shouldSendAlert (alertInterval now : Nat) (lastAlert : Option Nat) : Bool :=
  match lastAlert with
  | none => true
  | some t => t == 0 || decide (alertInterval < now - t)

/-- A message accepted by the messaging sink: a grouped problem alert for a
cluster, or a recovery notice. -/
inductive Message where
  | problem (cluster : String) (apps : List Application)
  | recovery (cluster : String)
deriving Repr, DecidableEq

/-- Alert-machine state threaded through sendSlackUpdates: the lastAlerts
map plus the log of messages the sink accepted this cycle. -/
structure SlackState where
  lastAlerts : AlertMap
  sent : List Message
deriving Repr, DecidableEq

/-- The per-cluster loop of ArgoVisor.sendSlackUpdates. `dOk` says whether
the sink accepts a dispatch for a given cluster; a rejected dispatch makes
sendSlackMessage throw, which sendSlackUpdates rethrows (`.error`),
aborting the loop before lastAlerts is updated for that cluster. -/
def runSendSlackUpdates (dOk : String → Bool) (alertInterval now : Nat)
    (st : SlackState) : List ClusterResult → Except SlackState SlackState
  | [] => .ok st
  | r :: rs =>
    let probs := problematicApps r
    let lastAlert := alertGet st.lastAlerts r.name
    if probs.length > 0 ∧ shouldSendAlert alertInterval now lastAlert = true then
      if dOk r.name then
        runSendSlackUpdates dOk alertInterval now
          { lastAlerts := alertSet st.lastAlerts r.name now
            sent := st.sent ++ [Message.problem r.name probs] } rs
      else .error st
    else if probs.length > 0 then
      runSendSlackUpdates dOk alertInterval now st rs
    else if (alertGet st.lastAlerts r.name).isSome then
      if dOk r.name then
        runSendSlackUpdates dOk alertInterval now
          { lastAlerts := alertErase st.lastAlerts r.name
            sent := st.sent ++ [Message.recovery r.name] } rs
      else .error st
    else runSendSlackUpdates dOk alertInterval now st rs

/-- ArgoVisor.sendSlackUpdates when every dispatch succeeds. -/
def sendSlackUpdates (alertInterval now : Nat) (lastAlerts : AlertMap)
    (results : List ClusterResult) : SlackState :=
  match runSendSlackUpdates (fun _ => true) alertInterval now
      { lastAlerts := lastAlerts, sent := [] } results with
  | .ok s => s
  | .error s => s

/-- Raw application record as returned by a cluster's listing endpoint:
each projected field may be absent (`app.metadata?.name`,
`app.status?.health?.status`, `app.status?.sync?.status`). -/
structure RawApp where
  name : Option String
  healthStatus : Option String
  syncStatus : Option String
deriving Repr, DecidableEq

/-- The mapping of ArgoVisor.processCluster: absent fields default via
`|| 'Unknown'`. -/
def mapApp (a : RawApp) : Application :=
  { name := a.name.getD "Unknown"
    healthStatus := a.healthStatus.getD "Unknown"
    syncStatus := a.syncStatus.getD "Unknown" }

/-- ArgoVisor.processCluster: getApplications already converts fetch
failures to an empty list; an empty list here raises (`none`), otherwise
the applications are mapped into a ClusterResult. -/
def processCluster (name url : String) (apps : List RawApp) : Option ClusterResult :=
  if apps.length = 0 then none
  else some { name := name, url := url, applications := apps.map mapApp }

/-- ArgoVisor.processClustersInBatches: one processCluster per configured
cluster, each with a local catch producing an empty-applications
ClusterResult; Promise.all preserves configuration order. `poll` gives the
raw listing each cluster's endpoint returned this cycle ([] on failure). -/
def processClustersInBatches (clusters : List (String × String))
    (poll : String → List RawApp) : List ClusterResult :=
  clusters.map (fun c =>
    match processCluster c.1 c.2 (poll c.1) with
    | some r => r
    | none => { name := c.1, url := c.2, applications := [] })

/-- The cached global state (globalCache entry shape). -/
structure GlobalState where
  metrics : Metrics
  clusters : List ClusterResult
  lastUpdate : Option Nat
deriving Repr, DecidableEq

/-- Monitor state owned by the ArgoVisor instance: the busy flag, the
snapshot cache entry, and the lastAlerts map. -/
structure MonitorState where
  isUpdating : Bool
  globalCache : Option GlobalState
  lastAlerts : AlertMap
deriving Repr, DecidableEq

/-- ArgoVisor.getGlobalState: the cached snapshot, or the well-defined
empty snapshot when none has ever been stored. -/
def getGlobalState (st : MonitorState) : GlobalState :=
  st.globalCache.getD { metrics := getEmptyMetrics, clusters := [], lastUpdate := none }

/-- ArgoVisor.refreshData: silently skip when busy; otherwise collect,
aggregate, store the snapshot, then evaluate alerts — any error thrown by
the alert loop is caught (logged) and the busy flag is cleared either
way. -/
def refreshData (cfg : List (String × String)) (poll : String → List RawApp)
    (dOk : String → Bool) (alertInterval now : Nat) (st : MonitorState) : MonitorState :=
  if st.isUpdating then st
  else
    let results := processClustersInBatches cfg poll
    let metrics := calculateMetrics results
    let gs : GlobalState := { metrics := metrics, clusters := results, lastUpdate := some now }
    match runSendSlackUpdates dOk alertInterval now
        { lastAlerts := st.lastAlerts, sent := [] } results with
    | .ok s => { isUpdating := false, globalCache := some gs, lastAlerts := s.lastAlerts }
    | .error s => { isUpdating := false, globalCache := some gs, lastAlerts := s.lastAlerts }

/-- ArgoVisor.forceRefresh: throw when busy, otherwise run refreshData and
return the resulting global state. -/
def forceRefresh (cfg : List (String × String)) (poll : String → List RawApp)
    (dOk : String → Bool) (alertInterval now : Nat) (st : MonitorState) :
    Except String (MonitorState × GlobalState) :=
  if st.isUpdating then .error "Update already in progress"
  else
    let st2 := refreshData cfg poll dOk alertInterval now st
    .ok (st2, getGlobalState st2)

/-! ## Claim theorems -/

/-- C8: before any refresh cycle has completed (no snapshot ever stored),
getGlobalState returns a snapshot whose eight metric counters are all
zero, whose cluster list is empty, and whose last-update timestamp is
null. -/
theorem C8_empty_snapshot (st : MonitorState) (h : st.globalCache = none) :
    getGlobalState st =
      { metrics :=
          { totalApps := 0, healthyApps := 0, syncedApps := 0, degradedApps := 0,
            failedApps := 0, outOfSyncApps := 0, unknownApps := 0, processingApps := 0 },
        clusters := [], lastUpdate := none } := by
  simp [getGlobalState, h, getEmptyMetrics]

/-- Witness for C8 at the initial monitor state. -/
theorem C8_empty_snapshot_witness :
    getGlobalState { isUpdating := false, globalCache := none, lastAlerts := [] } =
      { metrics :=
          { totalApps := 0, healthyApps := 0, syncedApps := 0, degradedApps := 0,
            failedApps := 0, outOfSyncApps := 0, unknownApps := 0, processingApps := 0 },
        clusters := [], lastUpdate := none } :=
  C8_empty_snapshot { isUpdating := false, globalCache := none, lastAlerts := [] } rfl

/-- C6: when a cycle is in flight, scheduled refreshData returns with no
error and no state change, while forceRefresh fails with the busy error;
when idle, forceRefresh runs a cycle and returns the resulting global
snapshot. -/
theorem C6_busy_flag (cfg : List (String × String)) (poll : String → List RawApp)
    (dOk : String → Bool) (alertInterval now : Nat) (st : MonitorState) :
    (st.isUpdating = true →
      refreshData cfg poll dOk alertInterval now st = st ∧
      forceRefresh cfg poll dOk alertInterval now st = .error "Update already in progress") ∧
    (st.isUpdating = false →
      forceRefresh cfg poll dOk alertInterval now st =
        .ok (refreshData cfg poll dOk alertInterval now st,
             getGlobalState (refreshData cfg poll dOk alertInterval now st))) := by
  constructor
  · intro h
    exact ⟨by simp [refreshData, h], by simp [forceRefresh, h]⟩
  · intro h
    simp [forceRefresh, h]

/-- Witness for C6: busy state skips and reports busy; idle state returns
the refreshed snapshot. -/
theorem C6_busy_flag_witness :
    (refreshData [] (fun _ => []) (fun _ => true) 5 7
        { isUpdating := true, globalCache := none, lastAlerts := [] } =
      { isUpdating := true, globalCache := none, lastAlerts := [] }) ∧
    (forceRefresh [] (fun _ => []) (fun _ => true) 5 7
        { isUpdating := true, globalCache := none, lastAlerts := [] } =
      .error "Update already in progress") ∧
    (forceRefresh [] (fun _ => []) (fun _ => true) 5 7
        { isUpdating := false, globalCache := none, lastAlerts := [] } =
      .ok (refreshData [] (fun _ => []) (fun _ => true) 5 7
             { isUpdating := false, globalCache := none, lastAlerts := [] },
           getGlobalState (refreshData [] (fun _ => []) (fun _ => true) 5 7
             { isUpdating := false, globalCache := none, lastAlerts := [] }))) :=
  ⟨((C6_busy_flag [] (fun _ => []) (fun _ => true) 5 7
      { isUpdating := true, globalCache := none, lastAlerts := [] }).1 rfl).1,
   ((C6_busy_flag [] (fun _ => []) (fun _ => true) 5 7
      { isUpdating := true, globalCache := none, lastAlerts := [] }).1 rfl).2,
   (C6_busy_flag [] (fun _ => []) (fun _ => true) 5 7
      { isUpdating := false, globalCache := none, lastAlerts := [] }).2 rfl⟩

/-- C10: an application that is OutOfSync but whose health status is none
of Healthy, Missing, Unknown, Degraded (e.g. Failed) is in the cluster's
problem set, yet appears under none of the four category groups of the
formatted alert message. -/
theorem C10_omitted_from_groups (app : Application) (r : ClusterResult)
    (hs : app.syncStatus = "OutOfSync")
    (h1 : app.healthStatus ≠ "Healthy") (h2 : app.healthStatus ≠ "Missing")
    (h3 : app.healthStatus ≠ "Unknown") (h4 : app.healthStatus ≠ "Degraded")
    (hn : strContains app.name "argocd-apps" = false)
    (hm : app ∈ r.applications) :
    app ∈ problematicApps r ∧
    ∀ g ∈ groupedApps (problematicApps r), app ∉ g.2 := by
  constructor
  · simp [problematicApps, List.mem_filter, hn, hs, hm]
  · intro g hg
    simp only [groupedApps, List.mem_cons, List.not_mem_nil, or_false] at hg
    rcases hg with h | h | h | h <;> subst h <;>
      simp [List.mem_filter, h1, h2, h3, h4]

/-- Witness for C10: a Failed OutOfSync application. -/
theorem C10_omitted_from_groups_witness :
    (⟨"x", "Failed", "OutOfSync"⟩ : Application) ∈
      problematicApps ⟨"A", "u", [⟨"x", "Failed", "OutOfSync"⟩]⟩ ∧
    ∀ g ∈ groupedApps (problematicApps ⟨"A", "u", [⟨"x", "Failed", "OutOfSync"⟩]⟩),
      (⟨"x", "Failed", "OutOfSync"⟩ : Application) ∉ g.2 :=
  C10_omitted_from_groups ⟨"x", "Failed", "OutOfSync"⟩
    ⟨"A", "u", [⟨"x", "Failed", "OutOfSync"⟩]⟩
    rfl (by decide) (by decide) (by decide) (by decide) (by decide) (by decide)

/-- Helper: the i-th collected result comes from the i-th configured
cluster alone. -/
theorem processClustersInBatches_getD (cfg : List (String × String))
    (poll : String → List RawApp) (i : Nat) (h : i < cfg.length) :
    (processClustersInBatches cfg poll).getD i default =
      (match processCluster (cfg.getD i default).1 (cfg.getD i default).2
          (poll (cfg.getD i default).1) with
      | some r => r
      | none => ⟨(cfg.getD i default).1, (cfg.getD i default).2, []⟩) := by
  have h2 : i < (processClustersInBatches cfg poll).length := by
    simpa [processClustersInBatches] using h
  rw [List.getD_eq_getElem _ _ h2, List.getD_eq_getElem _ _ h]
  simp [processClustersInBatches]

/-- Helper: a successful processCluster keeps the configured name and
url. -/
theorem processCluster_name_url (n u : String) (apps : List RawApp) (r : ClusterResult)
    (h : processCluster n u apps = some r) : r.name = n ∧ r.url = u := by
  unfold processCluster at h
  split at h
  · simp at h
  · rw [Option.some_inj] at h
    subst h
    exact ⟨rfl, rfl⟩

/-- C5: the collector returns exactly one ClusterResult per configured
cluster, in configuration order; a poll failure for one cluster yields an
empty-applications result for that cluster, and the i-th result depends
only on the i-th cluster's own poll outcome. -/
theorem C5_fanout_isolation (cfg : List (String × String)) (poll : String → List RawApp) :
    (processClustersInBatches cfg poll).length = cfg.length ∧
    (∀ i, i < cfg.length →
      ((processClustersInBatches cfg poll).getD i default).name = (cfg.getD i default).1 ∧
      ((processClustersInBatches cfg poll).getD i default).url = (cfg.getD i default).2) ∧
    (∀ i, i < cfg.length → poll (cfg.getD i default).1 = [] →
      (processClustersInBatches cfg poll).getD i default =
        ⟨(cfg.getD i default).1, (cfg.getD i default).2, []⟩) ∧
    (∀ poll2 i, i < cfg.length →
      poll (cfg.getD i default).1 = poll2 (cfg.getD i default).1 →
      (processClustersInBatches cfg poll).getD i default =
        (processClustersInBatches cfg poll2).getD i default) := by
  refine ⟨by simp [processClustersInBatches], ?_, ?_, ?_⟩
  · intro i h
    rw [processClustersInBatches_getD cfg poll i h]
    cases hp : processCluster (cfg.getD i default).1 (cfg.getD i default).2
        (poll (cfg.getD i default).1) with
    | none => simp
    | some r => simpa using processCluster_name_url _ _ _ r hp
  · intro i h hpoll
    rw [processClustersInBatches_getD cfg poll i h, hpoll]
    simp [processCluster]
  · intro poll2 i h hEq
    rw [processClustersInBatches_getD cfg poll i h,
      processClustersInBatches_getD cfg poll2 i h, hEq]

/-- Witness for C5 on a two-cluster configuration where the first
cluster's poll fails. -/
theorem C5_fanout_isolation_witness :
    (processClustersInBatches [("A", "uA"), ("B", "uB")] (fun n => if n == "A" then [] else [⟨some "b", some "Healthy", some "Synced"⟩])).length = 2 ∧
    (processClustersInBatches [("A", "uA"), ("B", "uB")] (fun n => if n == "A" then [] else [⟨some "b", some "Healthy", some "Synced"⟩])).getD 0 default =
      ⟨"A", "uA", []⟩ :=
  ⟨(C5_fanout_isolation [("A", "uA"), ("B", "uB")]
      (fun n => if n == "A" then [] else [⟨some "b", some "Healthy", some "Synced"⟩])).1,
   (C5_fanout_isolation [("A", "uA"), ("B", "uB")]
      (fun n => if n == "A" then [] else [⟨some "b", some "Healthy", some "Synced"⟩])).2.2.1
     0 (by decide) rfl⟩

/-- Helper: deleting a key from the lastAlerts map makes lookups of that
key miss. -/
theorem alertGet_alertErase (m : AlertMap) (k : String) :
    alertGet (alertErase m k) k = none := by
  induction m with
  | nil => rfl
  | cons p t ih =>
    by_cases h : p.1 = k
    · simpa [alertErase, List.filter_cons, h] using ih
    · simp [alertErase, alertGet, List.filter_cons, List.find?_cons, h] at ih ⊢

/-- C7: a cluster with an AlertState entry and an empty problem set gets
exactly one recovery dispatch and its entry deleted; a further clean
evaluation with no entry dispatches nothing. -/
theorem C7_recovery_one_shot (alertInterval now t : Nat) (m : AlertMap) (r : ClusterResult)
    (hp : problematicApps r = []) (hm : alertGet m r.name = some t) :
    sendSlackUpdates alertInterval now m [r] =
      { lastAlerts := alertErase m r.name, sent := [Message.recovery r.name] } ∧
    sendSlackUpdates alertInterval now (alertErase m r.name) [r] =
      { lastAlerts := alertErase m r.name, sent := [] } := by
  constructor
  · simp [sendSlackUpdates, runSendSlackUpdates, hp, hm]
  · simp [sendSlackUpdates, runSendSlackUpdates, hp, alertGet_alertErase]

/-- Witness for C7 on a concrete recovered cluster. -/
theorem C7_recovery_one_shot_witness :
    sendSlackUpdates 10 20 [("A", 5)] [⟨"A", "u", []⟩] =
      { lastAlerts := alertErase [("A", 5)] "A", sent := [Message.recovery "A"] } ∧
    sendSlackUpdates 10 20 (alertErase [("A", 5)] "A") [⟨"A", "u", []⟩] =
      { lastAlerts := alertErase [("A", 5)] "A", sent := [] } :=
  C7_recovery_one_shot 10 20 5 [("A", 5)] ⟨"A", "u", []⟩ rfl rfl

/-- C9: a cluster whose poll fails yields an empty applications sequence,
and if an AlertState entry exists the evaluation sends a recovery notice
and deletes the entry, exactly as if the cluster had healed. -/
theorem C9_fetch_failure_recovery (alertInterval now t : Nat) (n u : String)
    (poll : String → List RawApp) (m : AlertMap)
    (hpoll : poll n = []) (hm : alertGet m n = some t) :
    processClustersInBatches [(n, u)] poll = [⟨n, u, []⟩] ∧
    sendSlackUpdates alertInterval now m (processClustersInBatches [(n, u)] poll) =
      { lastAlerts := alertErase m n, sent := [Message.recovery n] } := by
  have h1 : processClustersInBatches [(n, u)] poll = [⟨n, u, []⟩] := by
    simp [processClustersInBatches, processCluster, hpoll]
  refine ⟨h1, ?_⟩
  rw [h1]
  simp [sendSlackUpdates, runSendSlackUpdates, problematicApps, hm]

/-- Witness for C9 on a concrete failing poll. -/
theorem C9_fetch_failure_recovery_witness :
    processClustersInBatches [("A", "u")] (fun _ => []) = [⟨"A", "u", []⟩] ∧
    sendSlackUpdates 10 20 [("A", 3)] (processClustersInBatches [("A", "u")] (fun _ => [])) =
      { lastAlerts := alertErase [("A", 3)] "A", sent := [Message.recovery "A"] } :=
  C9_fetch_failure_recovery 10 20 3 "A" "u" (fun _ => []) [("A", 3)] rfl rfl

/-- C1 counterexample: with alertInterval 10 and a last alert recorded at
T = 1, an evaluation at exactly T + alertInterval = 11 of a cluster with a
non-empty problem set dispatches nothing and leaves the recorded time
unchanged, because the code compares `now - lastAlert > alertInterval`
strictly. -/
theorem C1_counterexample :
    problematicApps ⟨"A", "uA", [⟨"x", "Degraded", "Synced"⟩]⟩ ≠ [] ∧
    sendSlackUpdates 10 11 [("A", 1)] [⟨"A", "uA", [⟨"x", "Degraded", "Synced"⟩]⟩] =
      { lastAlerts := [("A", 1)], sent := [] } := by
  constructor
  · decide
  · rfl

/-- C1 amended: for a recorded last-alert time T > 0 and a non-empty
problem set, an evaluation at now ≤ T + alertInterval dispatches nothing
and leaves the recorded time unchanged; at now > T + alertInterval it
dispatches exactly one grouped problem alert and records the new
instant. -/
theorem C1_dedup_boundary (alertInterval T now : Nat) (r : ClusterResult)
    (hT : 0 < T) (hp : problematicApps r ≠ []) :
    (now ≤ T + alertInterval →
      sendSlackUpdates alertInterval now [(r.name, T)] [r] =
        { lastAlerts := [(r.name, T)], sent := [] }) ∧
    (T + alertInterval < now →
      sendSlackUpdates alertInterval now [(r.name, T)] [r] =
        { lastAlerts := [(r.name, now)],
          sent := [Message.problem r.name (problematicApps r)] }) := by
  have hlen : 0 < (problematicApps r).length := List.length_pos.mpr hp
  constructor
  · intro hle
    have hs : shouldSendAlert alertInterval now (some T) = false := by
      simp only [shouldSendAlert, Bool.or_eq_false_iff, beq_eq_false_iff_ne, ne_eq,
        decide_eq_false_iff_not, not_lt]
      omega
    simp [sendSlackUpdates, runSendSlackUpdates, alertGet, hs, hlen]
  · intro hlt
    have hs : shouldSendAlert alertInterval now (some T) = true := by
      simp only [shouldSendAlert, Bool.or_eq_true, beq_iff_eq, decide_eq_true_eq]
      omega
    simp [sendSlackUpdates, runSendSlackUpdates, alertGet, hs, hlen, alertSet]

/-- Witness for C1 amended, on both sides of the boundary. -/
theorem C1_dedup_boundary_witness :
    (sendSlackUpdates 10 11 [("A", 1)] [⟨"A", "uA", [⟨"x", "Degraded", "Synced"⟩]⟩] =
      { lastAlerts := [("A", 1)], sent := [] }) ∧
    (sendSlackUpdates 10 12 [("A", 1)] [⟨"A", "uA", [⟨"x", "Degraded", "Synced"⟩]⟩] =
      { lastAlerts := [("A", 12)],
        sent := [Message.problem "A"
          (problematicApps ⟨"A", "uA", [⟨"x", "Degraded", "Synced"⟩]⟩)] }) :=
  ⟨(C1_dedup_boundary 10 1 11 ⟨"A", "uA", [⟨"x", "Degraded", "Synced"⟩]⟩
      (by decide) (by decide)).1 (by decide),
   (C1_dedup_boundary 10 1 12 ⟨"A", "uA", [⟨"x", "Degraded", "Synced"⟩]⟩
      (by decide) (by decide)).2 (by decide)⟩

/-- C2 counterexample: "argocd-initialize" is on the default exclusion
list and is indeed not counted by the filtered-metrics endpoint, yet a
degraded application of that name IS in the cluster's problem set during
alert evaluation, because that path only drops names containing the
substring "argocd-apps". -/
theorem C2_counterexample :
    "argocd-initialize" ∈ EXCLUDED_APPS_default ∧
    calculateFilteredMetrics EXCLUDED_APPS_default
      [⟨"A", "u", [⟨"argocd-initialize", "Degraded", "Synced"⟩]⟩] = getEmptyMetrics ∧
    problematicApps ⟨"A", "u", [⟨"argocd-initialize", "Degraded", "Synced"⟩]⟩ =
      [⟨"argocd-initialize", "Degraded", "Synced"⟩] := by
  exact ⟨by decide, by decide, by decide⟩

/-- C2 amended: an application whose name is on the exclusion list never
changes the filtered metrics served downstream; and an application whose
name contains the substring "argocd-apps" never contributes to any
cluster's problem set for alerting. -/
theorem C2_exclusion (excluded : List String) (app : Application)
    (c : ClusterResult) (pre post : List ClusterResult)
    (hex : excluded.contains app.name = true) :
    calculateFilteredMetrics excluded
        (pre ++ ⟨c.name, c.url, app :: c.applications⟩ :: post) =
      calculateFilteredMetrics excluded (pre ++ c :: post) ∧
    (strContains app.name "argocd-apps" = true →
      ∀ r : ClusterResult, app ∉ problematicApps r) := by
  have hex2 : app.name ∈ excluded := by simpa using hex
  constructor
  · simp [calculateFilteredMetrics, List.foldl_append, List.filter_cons, hex2]
  · intro hsub r hmem
    simp [problematicApps, List.mem_filter, hsub] at hmem

/-- Witness for C2 amended with the excluded name "argocd-apps". -/
theorem C2_exclusion_witness :
    calculateFilteredMetrics EXCLUDED_APPS_default
        [⟨"A", "u", [⟨"argocd-apps", "Degraded", "Synced"⟩]⟩] =
      calculateFilteredMetrics EXCLUDED_APPS_default [⟨"A", "u", []⟩] ∧
    (⟨"argocd-apps", "Degraded", "Synced"⟩ : Application) ∉
      problematicApps ⟨"B", "u2", [⟨"argocd-apps", "Degraded", "Synced"⟩]⟩ :=
  ⟨(C2_exclusion EXCLUDED_APPS_default ⟨"argocd-apps", "Degraded", "Synced"⟩
      ⟨"A", "u", []⟩ [] [] (by decide)).1,
   (C2_exclusion EXCLUDED_APPS_default ⟨"argocd-apps", "Degraded", "Synced"⟩
      ⟨"A", "u", []⟩ [] [] (by decide)).2 (by decide)
     ⟨"B", "u2", [⟨"argocd-apps", "Degraded", "Synced"⟩]⟩⟩

/-- Sum of the four health counters. -/
def healthSum (m : Metrics) : Nat :=
  m.healthyApps + m.degradedApps + m.failedApps + m.unknownApps

/-- Sum of the three sync counters. -/
def syncSum (m : Metrics) : Nat :=
  m.syncedApps + m.outOfSyncApps + m.processingApps

/-- Helper: the seven counter ifs never touch totalApps. -/
theorem countApp_totalApps (m : Metrics) (a : Application) :
    (countApp m a).totalApps = m.totalApps := by
  unfold countApp
  split_ifs <;> rfl

/-- Helper: one application raises the health counters by at most one in
total. -/
theorem countApp_healthSum (m : Metrics) (a : Application) :
    healthSum (countApp m a) ≤ healthSum m + 1 := by
  unfold countApp healthSum
  split_ifs <;> simp_all <;> omega

/-- Helper: one application raises the sync counters by at most one in
total. -/
theorem countApp_syncSum (m : Metrics) (a : Application) :
    syncSum (countApp m a) ≤ syncSum m + 1 := by
  unfold countApp syncSum
  split_ifs <;> simp_all <;> omega

/-- Helper: folding the counter ifs over a list leaves totalApps
unchanged. -/
theorem foldl_countApp_totalApps (apps : List Application) (m : Metrics) :
    (apps.foldl countApp m).totalApps = m.totalApps := by
  induction apps generalizing m with
  | nil => rfl
  | cons a t ih =>
    rw [List.foldl_cons, ih, countApp_totalApps]

/-- Helper: folding the counter ifs over a list raises healthSum by at
most the list length. -/
theorem foldl_countApp_healthSum (apps : List Application) (m : Metrics) :
    healthSum (apps.foldl countApp m) ≤ healthSum m + apps.length := by
  induction apps generalizing m with
  | nil => simp
  | cons a t ih =>
    have h1 := ih (countApp m a)
    have h2 := countApp_healthSum m a
    simp only [List.foldl_cons, List.length_cons]
    omega

/-- Helper: folding the counter ifs over a list raises syncSum by at most
the list length. -/
theorem foldl_countApp_syncSum (apps : List Application) (m : Metrics) :
    syncSum (apps.foldl countApp m) ≤ syncSum m + apps.length := by
  induction apps generalizing m with
  | nil => simp
  | cons a t ih =>
    have h1 := ih (countApp m a)
    have h2 := countApp_syncSum m a
    simp only [List.foldl_cons, List.length_cons]
    omega

/-- Helper: totalApps of the aggregation fold is the sum of per-cluster
application counts on top of the accumulator. -/
theorem calcFold_totalApps (results : List ClusterResult) (m : Metrics) :
    (results.foldl (fun m result =>
        result.applications.foldl countApp
          { m with totalApps := m.totalApps + result.applications.length }) m).totalApps =
      m.totalApps + (results.map (fun r => r.applications.length)).sum := by
  induction results generalizing m with
  | nil => simp
  | cons r t ih =>
    simp only [List.foldl_cons, List.map_cons, List.sum_cons]
    rw [ih, foldl_countApp_totalApps]
    have h4 : ({ m with totalApps := m.totalApps + r.applications.length } : Metrics).totalApps =
      m.totalApps + r.applications.length := rfl
    omega

/-- Helper: the aggregation fold preserves healthSum ≤ totalApps. -/
theorem calcFold_healthSum (results : List ClusterResult) (m : Metrics)
    (h : healthSum m ≤ m.totalApps) :
    healthSum (results.foldl (fun m result =>
        result.applications.foldl countApp
          { m with totalApps := m.totalApps + result.applications.length }) m) ≤
      (results.foldl (fun m result =>
        result.applications.foldl countApp
          { m with totalApps := m.totalApps + result.applications.length }) m).totalApps := by
  induction results generalizing m with
  | nil => simpa using h
  | cons r t ih =>
    simp only [List.foldl_cons]
    apply ih
    have h1 := foldl_countApp_healthSum r.applications
      { m with totalApps := m.totalApps + r.applications.length }
    have h2 := foldl_countApp_totalApps r.applications
      { m with totalApps := m.totalApps + r.applications.length }
    have h3 : healthSum { m with totalApps := m.totalApps + r.applications.length } =
      healthSum m := rfl
    have h4 : ({ m with totalApps := m.totalApps + r.applications.length } : Metrics).totalApps =
      m.totalApps + r.applications.length := rfl
    omega

/-- Helper: the aggregation fold preserves syncSum ≤ totalApps. -/
theorem calcFold_syncSum (results : List ClusterResult) (m : Metrics)
    (h : syncSum m ≤ m.totalApps) :
    syncSum (results.foldl (fun m result =>
        result.applications.foldl countApp
          { m with totalApps := m.totalApps + result.applications.length }) m) ≤
      (results.foldl (fun m result =>
        result.applications.foldl countApp
          { m with totalApps := m.totalApps + result.applications.length }) m).totalApps := by
  induction results generalizing m with
  | nil => simpa using h
  | cons r t ih =>
    simp only [List.foldl_cons]
    apply ih
    have h1 := foldl_countApp_syncSum r.applications
      { m with totalApps := m.totalApps + r.applications.length }
    have h2 := foldl_countApp_totalApps r.applications
      { m with totalApps := m.totalApps + r.applications.length }
    have h3 : syncSum { m with totalApps := m.totalApps + r.applications.length } =
      syncSum m := rfl
    have h4 : ({ m with totalApps := m.totalApps + r.applications.length } : Metrics).totalApps =
      m.totalApps + r.applications.length := rfl
    omega

/-- C3 counterexample: a single application with health status Missing is
counted in totalApps but increments NONE of the four health counters, so
an application does not always increment exactly one health counter. -/
theorem C3_counterexample :
    (calculateMetrics [⟨"A", "u", [⟨"m", "Missing", "Synced"⟩]⟩]).totalApps = 1 ∧
    healthSum (calculateMetrics [⟨"A", "u", [⟨"m", "Missing", "Synced"⟩]⟩]) = 0 := by
  exact ⟨by decide, by decide⟩

/-- C3 amended: totalApps equals the sum over clusters of application
counts, and each application increments at most one health counter and at
most one sync counter (so the health counters sum to at most totalApps,
as do the sync counters). -/
theorem C3_metrics_counters (results : List ClusterResult) :
    (calculateMetrics results).totalApps =
      (results.map (fun r => r.applications.length)).sum ∧
    healthSum (calculateMetrics results) ≤ (calculateMetrics results).totalApps ∧
    syncSum (calculateMetrics results) ≤ (calculateMetrics results).totalApps := by
  have he : calculateMetrics results =
      results.foldl (fun m result =>
        result.applications.foldl countApp
          { m with totalApps := m.totalApps + result.applications.length })
        getEmptyMetrics := rfl
  refine ⟨?_, ?_, ?_⟩
  · rw [he, calcFold_totalApps]
    simp [getEmptyMetrics]
  · rw [he]
    exact calcFold_healthSum results getEmptyMetrics (by decide)
  · rw [he]
    exact calcFold_syncSum results getEmptyMetrics (by decide)

/-- C4 counterexample: with clusters A then B both alert-worthy and the
sink rejecting A's dispatch, the loop aborts: B is never evaluated (no
dispatch for B, no lastAlerts entry for B), although evaluating B alone
would have dispatched. The failure is rethrown by sendSlackUpdates, not
swallowed there. -/
theorem C4_counterexample :
    runSendSlackUpdates (fun n => n != "A") 1000 5 ⟨[], []⟩
      [⟨"A", "uA", [⟨"x", "Degraded", "Synced"⟩]⟩,
       ⟨"B", "uB", [⟨"y", "Degraded", "Synced"⟩]⟩] =
      .error ⟨[], []⟩ ∧
    runSendSlackUpdates (fun n => n != "A") 1000 5 ⟨[], []⟩
      [⟨"B", "uB", [⟨"y", "Degraded", "Synced"⟩]⟩] =
      .ok ⟨[("B", 5)], [Message.problem "B" [⟨"y", "Degraded", "Synced"⟩]]⟩ := by
  exact ⟨rfl, rfl⟩

/-- C4 amended: a rejected dispatch makes the alert loop abort with the
current state (the failing cluster's lastAlerts entry is not updated and
no remaining cluster is evaluated); the error is caught at the
refresh-cycle boundary, and the snapshot stored before alert evaluation
remains visible regardless of dispatch outcome. -/
theorem C4_dispatch_failure (cfg : List (String × String)) (poll : String → List RawApp)
    (dOk : String → Bool) (alertInterval now : Nat) (st : MonitorState)
    (hbusy : st.isUpdating = false) :
    (refreshData cfg poll dOk alertInterval now st).globalCache =
      some { metrics := calculateMetrics (processClustersInBatches cfg poll),
             clusters := processClustersInBatches cfg poll,
             lastUpdate := some now } ∧
    (∀ (s : SlackState) (r : ClusterResult) (rs : List ClusterResult),
      (problematicApps r).length > 0 →
      shouldSendAlert alertInterval now (alertGet s.lastAlerts r.name) = true →
      dOk r.name = false →
      runSendSlackUpdates dOk alertInterval now s (r :: rs) = .error s) := by
  constructor
  · simp only [refreshData, hbusy, Bool.false_eq_true, if_false]
    split <;> rfl
  · intro s r rs h1 h2 h3
    unfold runSendSlackUpdates
    rw [if_pos ⟨h1, h2⟩, if_neg]
    simp [h3]

/-- Witness for C4 amended: snapshot visible after a cycle whose only
dispatch is rejected; the loop aborts immediately. -/
theorem C4_dispatch_failure_witness :
    (refreshData [("A", "uA")] (fun _ => [⟨some "x", some "Degraded", some "Synced"⟩])
        (fun _ => false) 1000 5 ⟨false, none, []⟩).globalCache =
      some { metrics := calculateMetrics (processClustersInBatches [("A", "uA")]
               (fun _ => [⟨some "x", some "Degraded", some "Synced"⟩])),
             clusters := processClustersInBatches [("A", "uA")]
               (fun _ => [⟨some "x", some "Degraded", some "Synced"⟩]),
             lastUpdate := some 5 } ∧
    runSendSlackUpdates (fun _ => false) 1000 5 ⟨[], []⟩
      [⟨"A", "uA", [⟨"x", "Degraded", "Synced"⟩]⟩, ⟨"B", "uB", []⟩] =
      .error ⟨[], []⟩ :=
  ⟨(C4_dispatch_failure [("A", "uA")] (fun _ => [⟨some "x", some "Degraded", some "Synced"⟩])
      (fun _ => false) 1000 5 ⟨false, none, []⟩ rfl).1,
   (C4_dispatch_failure [("A", "uA")] (fun _ => [⟨some "x", some "Degraded", some "Synced"⟩])
      (fun _ => false) 1000 5 ⟨false, none, []⟩ rfl).2
     ⟨[], []⟩ ⟨"A", "uA", [⟨"x", "Degraded", "Synced"⟩]⟩ [⟨"B", "uB", []⟩]
     (by decide) (by decide) rfl⟩
